import Mathlib

/-!
Verification of the multi-provider LLM comparison core
(`ComparisonService`, the per-provider service adapters, and the
dashboard's `handleCompare` flow) against its natural-language
specification.

The TypeScript source is shallowly embedded: JavaScript numbers are
modelled as `JSNum` (a rational together with the IEEE special values
`Infinity`, `-Infinity`, `NaN`; rationals stand in for doubles, which is
exact in every case the theorems below inspect, since they only look at
signs, finiteness and small exact quotients), network effects are
modelled by explicit per-call outcome values supplied through an
environment record, and thrown JavaScript exceptions are modelled with
`Except`.
-/

/-- Model of a JavaScript number: a finite rational or one of the IEEE
special values. -/
inductive JSNum where
  | fin (q : ℚ)
  | posInf
  | negInf
  | nan
deriving DecidableEq, Repr

/-- JavaScript division on `JSNum`, following IEEE-754 semantics for the
sign and specials (finite quotients are kept exact as rationals). -/
def jsDiv : JSNum → JSNum → JSNum
  | JSNum.fin a, JSNum.fin b =>
      if b ≠ 0 then JSNum.fin (a / b)
      else if a > 0 then JSNum.posInf
      else if a < 0 then JSNum.negInf
      else JSNum.nan
  | JSNum.nan, _ => JSNum.nan
  | _, JSNum.nan => JSNum.nan
  | JSNum.posInf, JSNum.posInf => JSNum.nan
  | JSNum.posInf, JSNum.negInf => JSNum.nan
  | JSNum.negInf, JSNum.posInf => JSNum.nan
  | JSNum.negInf, JSNum.negInf => JSNum.nan
  | JSNum.posInf, JSNum.fin b => if b < 0 then JSNum.negInf else JSNum.posInf
  | JSNum.negInf, JSNum.fin b => if b < 0 then JSNum.posInf else JSNum.negInf
  | JSNum.fin _, JSNum.posInf => JSNum.fin 0
  | JSNum.fin _, JSNum.negInf => JSNum.fin 0

/-- Whether a `JSNum` is strictly negative. -/
def JSNum.isNeg : JSNum → Bool
  | JSNum.fin q => q < 0
  | JSNum.negInf => true
  | _ => false

/-- Whether a `JSNum` is one of the two infinities. -/
def JSNum.isInf : JSNum → Bool
  | JSNum.posInf => true
  | JSNum.negInf => true
  | _ => false

/-- Whether a `JSNum` is `NaN`. -/
def JSNum.isNaN : JSNum → Bool
  | JSNum.nan => true
  | _ => false

/-- JavaScript `x || d` on an optional numeric configuration field:
`undefined` and `0` are falsy, so the default is substituted for both. -/
def jsOrNum (x : Option ℚ) (d : ℚ) : ℚ :=
  match x with
  | none => d
  | some q => if q = 0 then d else q

/-- JavaScript `s || d` on an optional string: `undefined` and the empty
string are falsy. -/
def jsOrStr (x : Option String) (d : String) : String :=
  match x with
  | none => d
  | some s => if s = "" then d else s

/-- JavaScript truthiness of an optional string (`undefined` and `""` are
falsy). -/
def jsTruthyStr (x : Option String) : Bool :=
  match x with
  | none => false
  | some s => s ≠ ""

/-- JavaScript truthiness of an optional number (`undefined` and `0` are
falsy). -/
def jsTruthyNum (x : Option ℚ) : Bool :=
  match x with
  | none => false
  | some q => q ≠ 0

/-- Token estimation shared by the adapters
(`estimateTokenCount` in the source): `Math.ceil(text.length / 4)`,
computed for the natural number `text.length` as `(length + 3) / 4` in
natural division (the exact value of the ceiling for nonnegative
integers). -/
def estimateTokenCount (text : String) : ℚ :=
  (((text.length + 3) / 4 : ℕ) : ℚ)

/-- JavaScript `String.prototype.trim`: drop whitespace from both ends. -/
def jsTrim (s : String) : String :=
  ⟨((s.data.dropWhile Char.isWhitespace).reverse.dropWhile
    Char.isWhitespace).reverse⟩

/-- Configuration of one hosted-API backend
(`APIEndpointConfig` in `model-config`). -/
structure APIEndpointConfig where
  id : String
  name : String
  enabled : Bool
  provider : String
  apiKey : String
  baseUrl : Option String
  modelName : Option String
  organization : Option String
  projectId : Option String
  isProjectKey : Option Bool
  temperature : Option ℚ
  maxTokens : Option ℚ
deriving DecidableEq, Repr

/-- Configuration of one local Ollama endpoint
(`OllamaEndpointConfig` in `model-config`). -/
structure OllamaEndpointConfig where
  id : String
  name : String
  enabled : Bool
  provider : String
  baseUrl : String
  modelName : String
  context_size : Option ℚ
  threads : Option ℚ
  temperature : Option ℚ
  maxTokens : Option ℚ
deriving DecidableEq, Repr

/-- Configuration of one local GGUF model
(`GGUFModelConfig` in `model-config`). -/
structure GGUFModelConfig where
  id : String
  name : String
  enabled : Bool
  provider : String
  modelPath : String
  serverPort : Option ℚ
  context_size : Option ℚ
  threads : Option ℚ
  temperature : Option ℚ
  maxTokens : Option ℚ
deriving DecidableEq, Repr

/-- The full configuration object handed to the orchestrator
(`ProviderConfigs` in `model-config`): six provider kinds. -/
structure ProviderConfigs where
  openai : List APIEndpointConfig
  anthropic : List APIEndpointConfig
  google : List APIEndpointConfig
  ollama : List OllamaEndpointConfig
  huggingface : List APIEndpointConfig
  gguf : List GGUFModelConfig
deriving DecidableEq, Repr

/-- Normalized metrics record (`ModelMetrics` in `model-config`). -/
structure ModelMetrics where
  responseTime : ℚ
  tokensPerSecond : JSNum
  totalTokens : Option ℚ
  promptTokens : Option ℚ
  completionTokens : Option ℚ
  cost : Option ℚ
  contextSize : Option ℚ
  memoryUsed : Option JSNum
deriving DecidableEq, Repr

/-- The all-zero metrics record every adapter returns on failure. -/
def zeroMetrics : ModelMetrics :=
  { responseTime := 0
    tokensPerSecond := JSNum.fin 0
    totalTokens := none
    promptTokens := none
    completionTokens := none
    cost := none
    contextSize := none
    memoryUsed := none }

/-- Result of one adapter invocation (`ModelResponse` in `model-config`). -/
structure ModelResponse where
  id : String
  provider : String
  model : String
  text : String
  metrics : ModelMetrics
  error : Option String
deriving DecidableEq, Repr

/-- Aggregate of one comparison run (`ComparisonResult` in
`model-config`). -/
structure ComparisonResult where
  prompt : String
  timestamp : String
  responses : List ModelResponse
  totalTime : ℚ
  errors : Option (List String)
deriving DecidableEq, Repr

/-- Per-model capability entry of the OpenAI adapter
(`OpenAIService.modelCapabilities` values). -/
structure ModelCapabilities where
  maxContextSize : ℚ
  inputCostPer1k : Option ℚ
  outputCostPer1k : Option ℚ
  supportsStreaming : Bool
  supportsJsonMode : Option Bool
  supportsFunctions : Option Bool
deriving DecidableEq, Repr

/-- The `gpt-4` entry of the capability table. -/
def capsGpt4 : ModelCapabilities :=
  { maxContextSize := 8192
    inputCostPer1k := some 0.03
    outputCostPer1k := some 0.06
    supportsStreaming := true
    supportsJsonMode := some true
    supportsFunctions := some true }

/-- The `gpt-4-turbo-preview` entry of the capability table. -/
def capsGpt4Turbo : ModelCapabilities :=
  { maxContextSize := 128000
    inputCostPer1k := some 0.01
    outputCostPer1k := some 0.03
    supportsStreaming := true
    supportsJsonMode := some true
    supportsFunctions := some true }

/-- The `gpt-3.5-turbo` entry of the capability table. -/
def capsGpt35 : ModelCapabilities :=
  { maxContextSize := 16385
    inputCostPer1k := some 0.0005
    outputCostPer1k := some 0.0015
    supportsStreaming := true
    supportsJsonMode := some true
    supportsFunctions := some true }

/-- Lookup in the OpenAI adapter's built-in capability table
(`this.modelCapabilities[model]`). -/
def modelCapabilities (model : String) : Option ModelCapabilities :=
  if model = "gpt-4" then some capsGpt4
  else if model = "gpt-4-turbo-preview" then some capsGpt4Turbo
  else if model = "gpt-3.5-turbo" then some capsGpt35
  else none

/-- `Object.keys(this.modelCapabilities)` in insertion order. -/
def modelCapabilitiesKeys : List String :=
  ["gpt-4", "gpt-4-turbo-preview", "gpt-3.5-turbo"]

/-- Cost computation of the OpenAI adapter (`OpenAIService.calculateCost`):
price lookup with `gpt-4` fallback, per 1k tokens. -/
def calculateCost (promptTokens completionTokens : ℚ) (model : String) : ℚ :=
  let caps := (modelCapabilities model).getD capsGpt4
  (promptTokens * caps.inputCostPer1k.getD 0 +
    completionTokens * caps.outputCostPer1k.getD 0) / 1000

/-- The wall-clock throughput expression shared by the hosted adapters:
`tokens / (responseTime / 1000)` in JavaScript arithmetic. -/
def wallClockTps (tokens responseTime : ℚ) : JSNum :=
  jsDiv (JSNum.fin tokens) (jsDiv (JSNum.fin responseTime) (JSNum.fin 1000))

/-- The `usage` block of a successful OpenAI chat completion. -/
structure OpenAIUsage where
  prompt_tokens : ℚ
  completion_tokens : ℚ
  total_tokens : ℚ
deriving DecidableEq, Repr

/-- Possible outcomes of the single network call made by
`OpenAIService.generateResponse`: the fetch rejects, the response is
non-ok (carrying the provider's optional `error.error?.message`), the
payload is malformed (a `TypeError` is raised while reading it), or it
succeeds with a content string, a usage block, and a measured wall-clock
duration in milliseconds. -/
inductive OpenAIOutcome where
  | fetchError (msg : String)
  | httpError (providerMsg : Option String)
  | malformed (msg : String)
  | success (content : String) (usage : OpenAIUsage) (responseTime : ℚ)
deriving DecidableEq, Repr

/-- Shallow embedding of `OpenAIService.generateResponse`. Every branch of
the source `try`/`catch` returns a `ModelResponse` normally. The second
component counts the network calls issued (always the one `fetch`). -/
def openaiGenerateResponse (cfg : APIEndpointConfig) (o : OpenAIOutcome) :
    ModelResponse × ℕ :=
  let model := jsOrStr cfg.modelName "gpt-4"
  let failResp := fun (msg : String) =>
    { id := cfg.id, provider := "OpenAI", model := model, text := ""
      metrics := zeroMetrics, error := some msg : ModelResponse }
  match o with
  | OpenAIOutcome.fetchError m => (failResp m, 1)
  | OpenAIOutcome.httpError pm => (failResp (jsOrStr pm "OpenAI API error"), 1)
  | OpenAIOutcome.malformed m => (failResp m, 1)
  | OpenAIOutcome.success content usage rt =>
      ({ id := cfg.id
         provider := "OpenAI"
         model := model
         text := content
         metrics :=
           { responseTime := rt
             tokensPerSecond := wallClockTps usage.completion_tokens rt
             totalTokens := some usage.total_tokens
             promptTokens := some usage.prompt_tokens
             completionTokens := some usage.completion_tokens
             cost := some (calculateCost usage.prompt_tokens
               usage.completion_tokens model)
             contextSize := (modelCapabilities model).map
               ModelCapabilities.maxContextSize
             memoryUsed := none }
         error := none }, 1)

/-- Claude pricing table of the Anthropic adapter
(`AnthropicService.calculateCost`). -/
def anthropicPrice (model : String) : Option ℚ :=
  if model = "claude-3-opus" then some 0.015
  else if model = "claude-3-sonnet" then some 0.003
  else if model = "claude-2.1" then some 0.008
  else if model = "claude-instant-1.2" then some 0.0008
  else none

/-- Cost computation of the Anthropic adapter: price lookup with the
`claude-3-opus` price as fallback. -/
def anthropicCost (totalTokens : ℚ) (model : String) : ℚ :=
  let pricePerToken := (anthropicPrice model).getD 0.015
  (totalTokens * pricePerToken) / 1000

/-- Possible outcomes of the network call made by
`AnthropicService.generateResponse`. -/
inductive AnthropicOutcome where
  | fetchError (msg : String)
  | httpError (providerMsg : Option String)
  | malformed (msg : String)
  | success (text : String) (responseTime : ℚ)
deriving DecidableEq, Repr

/-- Shallow embedding of `AnthropicService.generateResponse`: failures are
caught and encoded in the result; on success token counts are estimated
from character lengths. Second component counts network calls. -/
def anthropicGenerateResponse (cfg : APIEndpointConfig) (prompt : String)
    (o : AnthropicOutcome) : ModelResponse × ℕ :=
  let model := jsOrStr cfg.modelName "claude-3-opus"
  let failResp := fun (msg : String) =>
    { id := cfg.id, provider := "Anthropic", model := model, text := ""
      metrics := zeroMetrics, error := some msg : ModelResponse }
  match o with
  | AnthropicOutcome.fetchError m => (failResp m, 1)
  | AnthropicOutcome.httpError pm =>
      (failResp (jsOrStr pm "Anthropic API error"), 1)
  | AnthropicOutcome.malformed m => (failResp m, 1)
  | AnthropicOutcome.success text rt =>
      let promptTokens := estimateTokenCount prompt
      let completionTokens := estimateTokenCount text
      let totalTokens := promptTokens + completionTokens
      ({ id := cfg.id
         provider := "Anthropic"
         model := model
         text := text
         metrics :=
           { responseTime := rt
             tokensPerSecond := wallClockTps completionTokens rt
             totalTokens := some totalTokens
             promptTokens := some promptTokens
             completionTokens := some completionTokens
             cost := some (anthropicCost totalTokens model)
             contextSize := none
             memoryUsed := none }
         error := none }, 1)

/-- Possible outcomes of `GGUFService.generateResponse`: the health probe
fails (so the method throws-and-catches "GGUF server is not running"
after one fetch), or the completion fetch rejects / returns non-ok /
succeeds (two fetches in each of those cases). -/
inductive GGUFOutcome where
  | serverDown
  | fetchError (msg : String)
  | httpError (errField : Option String)
  | success (content : String) (responseTime : ℚ)
deriving DecidableEq, Repr

/-- Shallow embedding of `GGUFService.generateResponse`: all failures are
caught and encoded; token counts are character estimates. Second
component counts network calls (health probe plus completion call). -/
def ggufGenerateResponse (cfg : GGUFModelConfig) (prompt : String)
    (o : GGUFOutcome) : ModelResponse × ℕ :=
  let failResp := fun (msg : String) =>
    { id := cfg.id, provider := "GGUF", model := cfg.name, text := ""
      metrics := zeroMetrics, error := some msg : ModelResponse }
  match o with
  | GGUFOutcome.serverDown => (failResp "GGUF server is not running", 1)
  | GGUFOutcome.fetchError m => (failResp m, 2)
  | GGUFOutcome.httpError e => (failResp (jsOrStr e "GGUF API error"), 2)
  | GGUFOutcome.success content rt =>
      let completionTokens := estimateTokenCount content
      let promptTokens := estimateTokenCount prompt
      ({ id := cfg.id
         provider := "GGUF"
         model := cfg.name
         text := content
         metrics :=
           { responseTime := rt
             tokensPerSecond := wallClockTps completionTokens rt
             totalTokens := some (promptTokens + completionTokens)
             promptTokens := some promptTokens
             completionTokens := some completionTokens
             cost := none
             contextSize := none
             memoryUsed := none }
         error := none }, 2)

/-- Payload of a successful Ollama `/api/generate` reply
(`OllamaResponse` in the source; all durations in nanoseconds). -/
structure OllamaResponseData where
  response : String
  total_duration : ℚ
  load_duration : ℚ
  prompt_eval_count : ℚ
  prompt_eval_duration : ℚ
  eval_count : ℚ
  eval_duration : ℚ
deriving DecidableEq, Repr

/-- Possible outcomes of the network call made by
`OllamaService.generateCompletion`: rejected fetch, non-ok response
(carrying the parsed body's optional `error` field, where a body that
fails to parse is replaced by `{ error: response.statusText }`), or a
successful payload. -/
inductive OllamaGenOutcome where
  | fetchError (msg : String)
  | httpError (errField : Option String)
  | success (data : OllamaResponseData)
deriving DecidableEq, Repr

/-- The record `OllamaService.generateCompletion` resolves with. -/
structure OllamaCompletionMetrics where
  responseTime : ℚ
  tokensPerSecond : JSNum
  totalTokens : ℚ
  promptTokens : ℚ
  completionTokens : ℚ
  processingTime : ℚ
deriving DecidableEq, Repr

/-- Shallow embedding of `OllamaService.generateCompletion`. Unlike the
other adapters, its `catch` block RETHROWS the failure
(`console.error(...); throw error;`), modelled here as `Except.error`. On
success it converts `total_duration` from nanoseconds to milliseconds and
the summed eval durations from nanoseconds to seconds. -/
def ollamaGenerateCompletion (o : OllamaGenOutcome) :
    Except String OllamaCompletionMetrics :=
  match o with
  | OllamaGenOutcome.fetchError m => Except.error m
  | OllamaGenOutcome.httpError e => Except.error (jsOrStr e "Ollama API error")
  | OllamaGenOutcome.success d =>
      let responseTime := d.total_duration / 1000000
      let totalTokens := d.prompt_eval_count + d.eval_count
      let totalProcessingTime :=
        (d.prompt_eval_duration + d.eval_duration) / 1000000000
      Except.ok
        { responseTime := responseTime
          tokensPerSecond :=
            jsDiv (JSNum.fin totalTokens) (JSNum.fin totalProcessingTime)
          totalTokens := totalTokens
          promptTokens := d.prompt_eval_count
          completionTokens := d.eval_count
          processingTime := totalProcessingTime }

/-- The `OllamaStats` shape consumed by `OllamaService.calculateMetrics`
(every field optional; durations in nanoseconds). -/
structure OllamaStats where
  total_duration : Option ℚ
  load_duration : Option ℚ
  sample_count : Option ℚ
  sample_duration : Option ℚ
  prompt_eval_count : Option ℚ
  prompt_eval_duration : Option ℚ
  eval_count : Option ℚ
  eval_duration : Option ℚ
deriving DecidableEq, Repr

/-- Shallow embedding of `OllamaService.calculateMetrics`. Note the source
line `stats.eval_count / (stats.eval_duration / 1000)`: `eval_duration`
is in nanoseconds, and the code divides it by 1000, not by 1e9. The guard
is JavaScript truthiness of `stats.eval_count && stats.eval_duration`. -/
def calculateMetrics (cfg : OllamaEndpointConfig) (stats : OllamaStats)
    (responseTime : ℚ) (text : String) : ModelMetrics :=
  let completionTokens := estimateTokenCount text
  let evalTokensPerSecond :=
    if jsTruthyNum stats.eval_count && jsTruthyNum stats.eval_duration then
      jsDiv (JSNum.fin (stats.eval_count.getD 0))
        (jsDiv (JSNum.fin (stats.eval_duration.getD 0)) (JSNum.fin 1000))
    else
      wallClockTps completionTokens responseTime
  { responseTime := responseTime
    tokensPerSecond := evalTokensPerSecond
    totalTokens := stats.prompt_eval_count
    promptTokens :=
      if jsTruthyNum stats.prompt_eval_count then
        some (stats.prompt_eval_count.getD 0 - stats.eval_count.getD 0)
      else none
    completionTokens := stats.eval_count
    cost := none
    contextSize := some (jsOrNum cfg.context_size 4096)
    memoryUsed :=
      if jsTruthyNum stats.total_duration then
        some (JSNum.fin (stats.total_duration.getD 0 * 1024 * 1024))
      else none }

/-- Whether `sub` occurs as a contiguous sublist of the second list. -/
def hasSublistAux (sub : List Char) : List Char → Bool
  | [] => sub.isEmpty
  | c :: rest => sub.isPrefixOf (c :: rest) || hasSublistAux sub rest

/-- JavaScript `String.prototype.includes`. -/
def stringIncludes (s sub : String) : Bool :=
  hasSublistAux sub.data s.data

/-- JavaScript `String.prototype.startsWith`. -/
def stringStartsWith (s p : String) : Bool :=
  p.data.isPrefixOf s.data

/-- Possible outcomes of the `/models` fetch in
`OpenAIService.listModels`. -/
inductive ListModelsOutcome where
  | fetchError (msg : String)
  | httpError
  | malformed (msg : String)
  | success (ids : List String)
deriving DecidableEq, Repr

/-- The `try` body of `OpenAIService.listModels`: throws on a rejected
fetch, a non-ok response (`'Failed to fetch models'`), or a malformed
payload; otherwise filters the returned model ids to those that start
with `gpt-` and do not include `instruct`. -/
def tryListModels (o : ListModelsOutcome) : Except String (List String) :=
  match o with
  | ListModelsOutcome.fetchError m => Except.error m
  | ListModelsOutcome.httpError => Except.error "Failed to fetch models"
  | ListModelsOutcome.malformed m => Except.error m
  | ListModelsOutcome.success ids =>
      Except.ok (ids.filter (fun id =>
        stringStartsWith id "gpt-" && !(stringIncludes id "instruct")))

/-- Shallow embedding of `OpenAIService.listModels`: the whole body sits
in a `try`/`catch` whose `catch` returns
`Object.keys(this.modelCapabilities)`, so the method never rejects. -/
def openaiListModels (o : ListModelsOutcome) : List String :=
  match tryListModels o with
  | Except.ok v => v
  | Except.error _ => modelCapabilitiesKeys

/-- A model entry of the Ollama `/api/tags` reply. -/
structure OllamaTagModel where
  name : String
deriving DecidableEq, Repr

/-- Possible outcomes of the `/api/tags` fetch in
`OllamaService.listModels` (the `models` array may be absent). -/
inductive OllamaTagsOutcome where
  | fetchError (msg : String)
  | httpError (statusText : String)
  | success (models : Option (List OllamaTagModel))
deriving DecidableEq, Repr

/-- Shallow embedding of `OllamaService.listModels`: returns the model
names, `[]` when `data.models` is absent, and `[]` (instead of throwing)
on any error. -/
def ollamaListModels (o : OllamaTagsOutcome) : List String :=
  match o with
  | OllamaTagsOutcome.success (some ms) => ms.map OllamaTagModel.name
  | OllamaTagsOutcome.success none => []
  | _ => []

/-- Outbound request body built by `OpenAIService.generateResponse`
(`messages` is the single user message holding the prompt). -/
structure OpenAIRequestBody where
  model : String
  userMessage : String
  temperature : ℚ
  max_tokens : ℚ
deriving DecidableEq, Repr

/-- Request payload of the OpenAI adapter: `||` defaults for model,
temperature and max_tokens. -/
def openaiRequestBody (cfg : APIEndpointConfig) (prompt : String) :
    OpenAIRequestBody :=
  { model := jsOrStr cfg.modelName "gpt-4"
    userMessage := prompt
    temperature := jsOrNum cfg.temperature 0.7
    max_tokens := jsOrNum cfg.maxTokens 1000 }

/-- Outbound request body built by `AnthropicService.generateResponse`. -/
structure AnthropicRequestBody where
  model : String
  userMessage : String
  max_tokens : ℚ
  temperature : ℚ
deriving DecidableEq, Repr

/-- Request payload of the Anthropic adapter. -/
def anthropicRequestBody (cfg : APIEndpointConfig) (prompt : String) :
    AnthropicRequestBody :=
  { model := jsOrStr cfg.modelName "claude-3-opus-20240229"
    userMessage := prompt
    max_tokens := jsOrNum cfg.maxTokens 1000
    temperature := jsOrNum cfg.temperature 0.7 }

/-- Outbound request body built by `GGUFService.generateResponse`. -/
structure GGUFRequestBody where
  prompt : String
  temperature : ℚ
  max_tokens : ℚ
deriving DecidableEq, Repr

/-- Request payload of the GGUF adapter. -/
def ggufRequestBody (cfg : GGUFModelConfig) (prompt : String) :
    GGUFRequestBody :=
  { prompt := prompt
    temperature := jsOrNum cfg.temperature 0.7
    max_tokens := jsOrNum cfg.maxTokens 1000 }

/-- The `options` object of the Ollama generate request: note that
`num_predict` is `this.config.maxTokens` verbatim, with no default. -/
structure OllamaRequestOptions where
  temperature : ℚ
  num_predict : Option ℚ
  num_ctx : Option ℚ
  num_thread : Option ℚ
deriving DecidableEq, Repr

/-- Outbound request body built by `OllamaService.generateCompletion`. -/
structure OllamaRequestBody where
  model : String
  prompt : String
  stream : Bool
  options : OllamaRequestOptions
deriving DecidableEq, Repr

/-- Request payload of the Ollama adapter. -/
def ollamaRequestBody (cfg : OllamaEndpointConfig) (prompt : String) :
    OllamaRequestBody :=
  { model := cfg.modelName
    prompt := prompt
    stream := false
    options :=
      { temperature := jsOrNum cfg.temperature 0.7
        num_predict := cfg.maxTokens
        num_ctx := cfg.context_size
        num_thread := cfg.threads } }

/-- The per-run service-instance sets built by
`ComparisonService.updateConfigs`. Note there are only four fields: the
`google` and `huggingface` lists of `ProviderConfigs` have no
counterpart. -/
structure Services where
  openai : List APIEndpointConfig
  anthropic : List APIEndpointConfig
  ollama : List OllamaEndpointConfig
  gguf : List GGUFModelConfig
deriving DecidableEq, Repr

/-- Shallow embedding of `ComparisonService.updateConfigs`: filter each of
the four dispatched kinds to its enabled configs and build one service
per config. -/
def updateConfigs (configs : ProviderConfigs) : Services :=
  { openai := configs.openai.filter (fun c => c.enabled)
    anthropic := configs.anthropic.filter (fun c => c.enabled)
    ollama := configs.ollama.filter (fun c => c.enabled)
    gguf := configs.gguf.filter (fun c => c.enabled) }

/-- The external world of one run: the outcome each provider returns for
each call, the health/tags probes, and the clock readings the
orchestrator and dashboard take. -/
structure Env where
  openaiCall : APIEndpointConfig → String → OpenAIOutcome
  anthropicCall : APIEndpointConfig → String → AnthropicOutcome
  ggufCall : GGUFModelConfig → String → GGUFOutcome
  ollamaGen : OllamaEndpointConfig → String → OllamaGenOutcome
  ollamaTags : OllamaEndpointConfig → OllamaTagsOutcome
  ggufHealth : GGUFModelConfig → Bool
  timestampStr : String
  totalElapsed : ℚ
  dashNow : ℚ

/-- The aggregate error string `compareModels` builds from a failed
response: `provider (model): error`. -/
def formatAggregateErr (r : ModelResponse) : String :=
  r.provider ++ " (" ++ r.model ++ "): " ++ r.error.getD ""

/-- Shallow embedding of `ComparisonService.compareModels`. The pushes
happen in submission order (openai, anthropic, ollama, gguf), and
`Promise.all` resolves with the results in that same positional order.
`OllamaService` has no `generateResponse` method, so reaching the ollama
loop calls `undefined` and the whole method rejects with a `TypeError`
(modelled as `Except.error`); the openai and anthropic fetches have
already been issued at that point. The second component counts network
calls issued. No validation of the prompt or of the enabled set is
performed anywhere in the method. -/
def compareModels (svc : Services) (env : Env) (prompt : String) :
    Except String ComparisonResult × ℕ :=
  let oa := svc.openai.map (fun c =>
    openaiGenerateResponse c (env.openaiCall c prompt))
  let an := svc.anthropic.map (fun c =>
    anthropicGenerateResponse c prompt (env.anthropicCall c prompt))
  let oaCalls := (oa.map Prod.snd).sum
  let anCalls := (an.map Prod.snd).sum
  if svc.ollama.isEmpty then
    let gg := svc.gguf.map (fun c =>
      ggufGenerateResponse c prompt (env.ggufCall c prompt))
    let responses := (oa ++ an ++ gg).map Prod.fst
    let errors := (responses.filter (fun r => jsTruthyStr r.error)).map
      formatAggregateErr
    (Except.ok
      { prompt := prompt
        timestamp := env.timestampStr
        responses := responses
        totalTime := env.totalElapsed
        errors := if errors.length > 0 then some errors else none },
      oaCalls + anCalls + (gg.map Prod.snd).sum)
  else
    (Except.error "service.generateResponse is not a function",
      oaCalls + anCalls)

/-- Shallow embedding of `ComparisonService.validateConnections`, as the
ordered sequence of `results[key] = value` writes it performs. Keys are
prefixed with the provider kind (`openai-`, `anthropic-`, `ollama-`,
`gguf-`). Values: openai and anthropic probe with a `"test"` generation
and record `!response.error`; ollama records whether `listModels`
returned a non-empty list; gguf records the health probe. Every probe
body is wrapped in `try`/`catch` with `false` on exception, and the
probed operations themselves never throw, so the method never throws. -/
def validateConnections (svc : Services) (env : Env) :
    List (String × Bool) :=
  (svc.openai.map (fun c =>
    ("openai-" ++ c.id,
      !(jsTruthyStr (openaiGenerateResponse c (env.openaiCall c "test")).1.error))))
  ++ (svc.anthropic.map (fun c =>
    ("anthropic-" ++ c.id,
      !(jsTruthyStr (anthropicGenerateResponse c "test" (env.anthropicCall c "test")).1.error))))
  ++ (svc.ollama.map (fun c =>
    ("ollama-" ++ c.id,
      decide ((ollamaListModels (env.ollamaTags c)).length > 0))))
  ++ (svc.gguf.map (fun c => ("gguf-" ++ c.id, env.ggufHealth c)))

/-- A member of the dashboard's `enabledModels` array
(`ComparisonDashboard`): only the openai and ollama config lists feed
it. -/
inductive DashModel where
  | openaiModel (c : APIEndpointConfig)
  | ollamaModel (c : OllamaEndpointConfig)
deriving DecidableEq, Repr

/-- The `id` field of a dashboard model entry. -/
def DashModel.modelId : DashModel → String
  | DashModel.openaiModel c => c.id
  | DashModel.ollamaModel c => c.id

/-- The dashboard's `enabledModels`:
`configs.openai.filter(enabled) ++ configs.ollama.filter(enabled)`. -/
def dashEnabledModels (configs : ProviderConfigs) : List DashModel :=
  ((configs.openai.filter (fun c => c.enabled)).map DashModel.openaiModel)
  ++ ((configs.ollama.filter (fun c => c.enabled)).map DashModel.ollamaModel)

/-- The per-model record the dashboard keeps (its local `ModelMetrics`
interface). -/
structure DashMetricsRecord where
  modelId : String
  modelName : String
  timestampMs : ℚ
  responseTime : ℚ
  tokensPerSecond : JSNum
  totalTokens : ℚ
  promptTokens : ℚ
  completionTokens : ℚ
  processingTime : ℚ
deriving DecidableEq, Repr

/-- One iteration of the dashboard's per-selected-model loop: looks the id
up in `enabledModels`; for an ollama model it runs `generateCompletion`
(one generate fetch) and catches a rejection into `null`; every other
provider falls through to `return null` without a network call. -/
def dashProcessOne (configs : ProviderConfigs) (env : Env) (prompt : String)
    (modelId : String) : Option DashMetricsRecord × ℕ :=
  match (dashEnabledModels configs).find? (fun m => m.modelId == modelId) with
  | none => (none, 0)
  | some (DashModel.openaiModel _) => (none, 0)
  | some (DashModel.ollamaModel c) =>
      match ollamaGenerateCompletion (env.ollamaGen c prompt) with
      | Except.error _ => (none, 1)
      | Except.ok m =>
          (some { modelId := modelId
                  modelName := c.name
                  timestampMs := env.dashNow
                  responseTime := m.responseTime
                  tokensPerSecond := m.tokensPerSecond
                  totalTokens := m.totalTokens
                  promptTokens := m.promptTokens
                  completionTokens := m.completionTokens
                  processingTime := m.processingTime }, 1)

/-- How one dashboard comparison run ends. -/
inductive DashOutcome where
  | inputError (msg : String)
  | totalFailure (msg : String)
  | okResults (results : List DashMetricsRecord)
deriving DecidableEq, Repr

/-- Shallow embedding of the dashboard's `handleCompare`: the two
user-input guards run before anything else and return with a toast and
zero network calls; past them, each selected model is processed, `null`
results are filtered out, and an empty result list raises
`"No successful model responses"`. Second component counts network
calls. -/
def handleCompare (configs : ProviderConfigs) (env : Env) (prompt : String)
    (selected : List String) : DashOutcome × ℕ :=
  if jsTrim prompt = "" then
    (DashOutcome.inputError "Please enter a prompt to compare", 0)
  else if selected.isEmpty then
    (DashOutcome.inputError "Please select at least one model to compare", 0)
  else
    let processed := selected.map (dashProcessOne configs env prompt)
    let calls := (processed.map Prod.snd).sum
    let results := processed.filterMap Prod.fst
    if results.isEmpty then
      (DashOutcome.totalFailure "No successful model responses", calls)
    else
      (DashOutcome.okResults results, calls)

/-- Cardinality of the enabled subset of a full configuration set, over
all six provider kinds (the measure the specification's claims quantify
over). -/
def enabledTotal (configs : ProviderConfigs) : ℕ :=
  (configs.openai.filter (fun c => c.enabled)).length
  + (configs.anthropic.filter (fun c => c.enabled)).length
  + (configs.google.filter (fun c => c.enabled)).length
  + (configs.ollama.filter (fun c => c.enabled)).length
  + (configs.huggingface.filter (fun c => c.enabled)).length
  + (configs.gguf.filter (fun c => c.enabled)).length

/-- The ids of the launched calls in submission order: openai, then
anthropic, then ollama, then gguf, each group in configuration order. -/
def submissionIds (svc : Services) : List String :=
  svc.openai.map APIEndpointConfig.id
  ++ svc.anthropic.map APIEndpointConfig.id
  ++ svc.ollama.map OllamaEndpointConfig.id
  ++ svc.gguf.map GGUFModelConfig.id

/-- Insertion step for ordering ids by a latency assignment. -/
def insertByLat (lat : String → ℚ) (x : String) :
    List String → List String
  | [] => [x]
  | y :: ys =>
      if lat x ≤ lat y then x :: y :: ys else y :: insertByLat lat x ys

/-- The settlement (completion) order of a set of concurrent calls whose
latencies are given by `lat`: the ids sorted by increasing latency. This
is claim-side vocabulary, used to state what the specification asserts
about response ordering. -/
def settlementOrder (lat : String → ℚ) (ids : List String) : List String :=
  ids.foldr (insertByLat lat) []

/-- Projection discarding a thrown error (used to state facts about the
value `compareModels` resolves with). -/
def exceptValue {ε α : Type} : Except ε α → Option α
  | Except.ok a => some a
  | Except.error _ => none

/-- The ids of the responses of a comparison result, when the run
resolved. -/
def resultIds (x : Except String ComparisonResult) : Option (List String) :=
  (exceptValue x).map (fun r => r.responses.map ModelResponse.id)

/-- The number of responses of a comparison result, when the run
resolved. -/
def resultLen (x : Except String ComparisonResult) : Option ℕ :=
  (exceptValue x).map (fun r => r.responses.length)

/-- A concrete enabled huggingface configuration. -/
def cfgHF : APIEndpointConfig :=
  { id := "hf1", name := "HF", enabled := true, provider := "huggingface"
    apiKey := "k", baseUrl := none, modelName := some "gpt2"
    organization := none, projectId := none, isProjectKey := none
    temperature := none, maxTokens := none }

/-- A concrete enabled OpenAI configuration with id `A`. -/
def cfgOpenAI : APIEndpointConfig :=
  { id := "A", name := "OpenAI A", enabled := true, provider := "openai"
    apiKey := "k", baseUrl := none, modelName := some "gpt-4"
    organization := none, projectId := none, isProjectKey := none
    temperature := none, maxTokens := none }

/-- A concrete enabled GGUF configuration with id `B`. -/
def cfgGGUF : GGUFModelConfig :=
  { id := "B", name := "Local B", enabled := true, provider := "gguf"
    modelPath := "/m.gguf", serverPort := none, context_size := none
    threads := none, temperature := none, maxTokens := none }

/-- A concrete enabled Ollama configuration with a configured temperature
of exactly 0 and a configured max-tokens of exactly 0. -/
def cfgOllama : OllamaEndpointConfig :=
  { id := "O", name := "Llama", enabled := true, provider := "ollama"
    baseUrl := "http://localhost:11434", modelName := "llama2"
    context_size := none, threads := none
    temperature := some 0, maxTokens := some 0 }

/-- The empty configuration set. -/
def configsEmptyBase : ProviderConfigs :=
  { openai := [], anthropic := [], google := [], ollama := []
    huggingface := [], gguf := [] }

/-- A configuration set whose only enabled entry is a huggingface
config. -/
def configsHF : ProviderConfigs :=
  { configsEmptyBase with huggingface := [cfgHF] }

/-- A configuration set with a single enabled OpenAI config. -/
def configsOne : ProviderConfigs :=
  { configsEmptyBase with openai := [cfgOpenAI] }

/-- A configuration set with one enabled OpenAI config (`A`) and one
enabled GGUF config (`B`). -/
def configsAB : ProviderConfigs :=
  { configsEmptyBase with openai := [cfgOpenAI], gguf := [cfgGGUF] }

/-- A configuration set with a single enabled Ollama config. -/
def configsOllama : ProviderConfigs :=
  { configsEmptyBase with ollama := [cfgOllama] }

/-- An environment in which every provider call fails with a rejected
fetch (or, for GGUF, a failed health probe). -/
def envAllFail : Env :=
  { openaiCall := fun _ _ => OpenAIOutcome.fetchError "Failed to fetch"
    anthropicCall := fun _ _ => AnthropicOutcome.fetchError "Failed to fetch"
    ggufCall := fun _ _ => GGUFOutcome.serverDown
    ollamaGen := fun _ _ => OllamaGenOutcome.fetchError "Failed to fetch"
    ollamaTags := fun _ => OllamaTagsOutcome.fetchError "Failed to fetch"
    ggufHealth := fun _ => false
    timestampStr := "2026-01-01T00:00:00.000Z"
    totalElapsed := 0
    dashNow := 0 }

/-- An environment in which every provider call succeeds. -/
def envOk : Env :=
  { openaiCall := fun _ _ =>
      OpenAIOutcome.success "ok" ⟨10, 50, 60⟩ 2000
    anthropicCall := fun _ _ => AnthropicOutcome.success "ok" 1000
    ggufCall := fun _ _ => GGUFOutcome.success "abcd" 500
    ollamaGen := fun _ _ =>
      OllamaGenOutcome.success ⟨"hi", 1000000, 0, 4, 500000000, 6, 500000000⟩
    ollamaTags := fun _ => OllamaTagsOutcome.success (some [⟨"llama2"⟩])
    ggufHealth := fun _ => true
    timestampStr := "2026-01-01T00:00:00.000Z"
    totalElapsed := 2000
    dashNow := 0 }

/-- A latency assignment under which call `B` settles before call `A`. -/
def latAB : String → ℚ := fun id => if id = "A" then 10 else 1

/-- The id an OpenAI response carries is the config id, on every
outcome. -/
lemma openaiGenerateResponse_id (c : APIEndpointConfig) (o : OpenAIOutcome) :
    (openaiGenerateResponse c o).1.id = c.id := by
  cases o <;> rfl

/-- The id an Anthropic response carries is the config id, on every
outcome. -/
lemma anthropicGenerateResponse_id (c : APIEndpointConfig) (p : String)
    (o : AnthropicOutcome) :
    (anthropicGenerateResponse c p o).1.id = c.id := by
  cases o <;> rfl

/-- The id a GGUF response carries is the config id, on every outcome. -/
lemma ggufGenerateResponse_id (c : GGUFModelConfig) (p : String)
    (o : GGUFOutcome) :
    (ggufGenerateResponse c p o).1.id = c.id := by
  cases o <;> rfl

/-- The response list `compareModels` assembles when it does not reject:
openai, anthropic and gguf calls in submission order. -/
def compareResponses (svc : Services) (env : Env) (prompt : String) :
    List ModelResponse :=
  ((svc.openai.map (fun c => openaiGenerateResponse c (env.openaiCall c prompt)))
    ++ (svc.anthropic.map (fun c =>
          anthropicGenerateResponse c prompt (env.anthropicCall c prompt)))
    ++ (svc.gguf.map (fun c =>
          ggufGenerateResponse c prompt (env.ggufCall c prompt)))).map Prod.fst

/-- With no ollama services, `compareModels` resolves with the assembled
responses and the aggregate error list built from the truthy-error
entries. -/
lemma compareModels_ok (svc : Services) (env : Env) (prompt : String)
    (h : svc.ollama = []) :
    (compareModels svc env prompt).1 = Except.ok
      { prompt := prompt
        timestamp := env.timestampStr
        responses := compareResponses svc env prompt
        totalTime := env.totalElapsed
        errors :=
          if (((compareResponses svc env prompt).filter
              (fun r => jsTruthyStr r.error)).map formatAggregateErr).length > 0
          then some (((compareResponses svc env prompt).filter
              (fun r => jsTruthyStr r.error)).map formatAggregateErr)
          else none } := by
  simp [compareModels, compareResponses, h]

/-- The failed response the OpenAI adapter returns for config `A` under a
rejected fetch. -/
def respOpenAIFail : ModelResponse :=
  { id := "A", provider := "OpenAI", model := "gpt-4", text := ""
    metrics := zeroMetrics, error := some "Failed to fetch" }

/-- C10: `OpenAIService.listModels` never rejects — on a rejected fetch,
a non-ok response, or a malformed payload it returns the keys of the
built-in capability table, `['gpt-4', 'gpt-4-turbo-preview',
'gpt-3.5-turbo']`, instead of an error; on success it returns the
`gpt-`-prefixed, non-`instruct` model ids, so a fallback is
indistinguishable from a live listing that happens to contain exactly
those models. -/
theorem openai_listModels_fallback :
    (∀ m : String,
      openaiListModels (ListModelsOutcome.fetchError m) = modelCapabilitiesKeys)
    ∧ openaiListModels ListModelsOutcome.httpError = modelCapabilitiesKeys
    ∧ (∀ m : String,
      openaiListModels (ListModelsOutcome.malformed m) = modelCapabilitiesKeys)
    ∧ modelCapabilitiesKeys = ["gpt-4", "gpt-4-turbo-preview", "gpt-3.5-turbo"]
    ∧ (∀ ids : List String,
      openaiListModels (ListModelsOutcome.success ids)
        = ids.filter (fun id =>
            stringStartsWith id "gpt-" && !(stringIncludes id "instruct")))
    ∧ openaiListModels
        (ListModelsOutcome.success ["gpt-4", "gpt-4-turbo-preview", "gpt-3.5-turbo"])
        = openaiListModels ListModelsOutcome.httpError :=
  ⟨fun _ => rfl, rfl, fun _ => rfl, rfl, fun _ => rfl, by decide⟩

/-- C2 counterexample: the local-ollama-style adapter DOES propagate a
failure past its own boundary — on a rejected fetch
`OllamaService.generateCompletion` rethrows, so its caller observes an
exception rather than a ModelResponse carrying the error. -/
theorem ollama_generateCompletion_rethrows :
    ollamaGenerateCompletion (OllamaGenOutcome.fetchError "Failed to fetch")
      = Except.error "Failed to fetch" := rfl

/-- C2 amended: the OpenAI, Anthropic and GGUF adapters never throw —
every failure outcome yields a normally-returned ModelResponse whose
`error` field describes the failure (with empty text) — but the Ollama
adapter's `generateCompletion` rethrows both fetch failures and non-ok
responses to its caller, and `OllamaService` exposes no `generateResponse`
for the orchestrator's fan-in at all. -/
theorem adapters_encode_failures_except_ollama :
    ∀ (a : APIEndpointConfig) (g : GGUFModelConfig) (prompt m : String)
      (pm : Option String),
    ((openaiGenerateResponse a (OpenAIOutcome.fetchError m)).1.error = some m
      ∧ (openaiGenerateResponse a (OpenAIOutcome.fetchError m)).1.text = ""
      ∧ (openaiGenerateResponse a (OpenAIOutcome.httpError pm)).1.error
          = some (jsOrStr pm "OpenAI API error")
      ∧ (openaiGenerateResponse a (OpenAIOutcome.malformed m)).1.error = some m)
    ∧ ((anthropicGenerateResponse a prompt (AnthropicOutcome.fetchError m)).1.error
          = some m
      ∧ (anthropicGenerateResponse a prompt (AnthropicOutcome.httpError pm)).1.error
          = some (jsOrStr pm "Anthropic API error"))
    ∧ ((ggufGenerateResponse g prompt GGUFOutcome.serverDown).1.error
          = some "GGUF server is not running"
      ∧ (ggufGenerateResponse g prompt (GGUFOutcome.fetchError m)).1.error = some m
      ∧ (ggufGenerateResponse g prompt (GGUFOutcome.httpError pm)).1.error
          = some (jsOrStr pm "GGUF API error"))
    ∧ (ollamaGenerateCompletion (OllamaGenOutcome.fetchError m) = Except.error m
      ∧ ollamaGenerateCompletion (OllamaGenOutcome.httpError pm)
          = Except.error (jsOrStr pm "Ollama API error")) :=
  fun _ _ _ _ _ =>
    ⟨⟨rfl, rfl, rfl, rfl⟩, ⟨rfl, rfl⟩, ⟨rfl, rfl, rfl⟩, ⟨rfl, rfl⟩⟩

/-- C9 counterexample: the Ollama adapter does NOT replace a configured
max-tokens of 0 by 1000 — the outbound request's `options.num_predict`
for the enabled Ollama config with `maxTokens = 0` is 0, not 1000. -/
theorem ollama_num_predict_keeps_zero :
    (ollamaRequestBody cfgOllama "hi").options.num_predict = some 0
    ∧ some (0 : ℚ) ≠ some (1000 : ℚ) :=
  ⟨rfl, by decide⟩

/-- C9 amended: in the OpenAI, Anthropic and GGUF adapters the defaults
are substituted whenever the configured value is falsy — a temperature of
exactly 0 becomes 0.7 and a max-tokens of 0 becomes 1000 in the outbound
payload, exactly as for an absent value; the Ollama adapter substitutes
the temperature default on falsy values but passes max-tokens through
verbatim as `num_predict`, with no default. -/
theorem falsy_generation_defaults :
    ∀ (a : APIEndpointConfig) (g : GGUFModelConfig)
      (oc : OllamaEndpointConfig) (prompt : String),
    (a.temperature = some 0 → (openaiRequestBody a prompt).temperature = 0.7)
    ∧ (a.temperature = none → (openaiRequestBody a prompt).temperature = 0.7)
    ∧ (a.maxTokens = some 0 → (openaiRequestBody a prompt).max_tokens = 1000)
    ∧ (a.temperature = some 0 → (anthropicRequestBody a prompt).temperature = 0.7)
    ∧ (a.maxTokens = some 0 → (anthropicRequestBody a prompt).max_tokens = 1000)
    ∧ (g.temperature = some 0 → (ggufRequestBody g prompt).temperature = 0.7)
    ∧ (g.maxTokens = some 0 → (ggufRequestBody g prompt).max_tokens = 1000)
    ∧ (oc.temperature = some 0 →
        (ollamaRequestBody oc prompt).options.temperature = 0.7)
    ∧ (ollamaRequestBody oc prompt).options.num_predict = oc.maxTokens := by
  intro a g oc prompt
  refine ⟨?_, ?_, ?_, ?_, ?_, ?_, ?_, ?_, rfl⟩ <;> intro h <;>
    simp [openaiRequestBody, anthropicRequestBody, ggufRequestBody,
      ollamaRequestBody, jsOrNum, h]

/-- Witness for the amended C9 theorem at concrete configurations: the
Ollama config with temperature 0 gets the 0.7 default while its zero
max-tokens is passed through, and the OpenAI config with absent
temperature also gets 0.7. -/
theorem falsy_generation_defaults_witness :
    (ollamaRequestBody cfgOllama "hi").options.temperature = 0.7
    ∧ (ollamaRequestBody cfgOllama "hi").options.num_predict = cfgOllama.maxTokens
    ∧ (openaiRequestBody cfgOpenAI "hi").temperature = 0.7 :=
  ⟨(falsy_generation_defaults cfgOpenAI cfgGGUF cfgOllama "hi").2.2.2.2.2.2.2.1 rfl,
   (falsy_generation_defaults cfgOpenAI cfgGGUF cfgOllama "hi").2.2.2.2.2.2.2.2,
   (falsy_generation_defaults cfgOpenAI cfgGGUF cfgOllama "hi").2.1 rfl⟩

/-- Stats payload for the C7 failing input: 100 generated tokens over
an `eval_duration` of 1e9 nanoseconds, i.e. exactly one second. -/
def statsOneSecond : OllamaStats :=
  { total_duration := none, load_duration := none, sample_count := none
    sample_duration := none, prompt_eval_count := none
    prompt_eval_duration := none, eval_count := some 100
    eval_duration := some 1000000000 }

/-- Stats payload with both eval fields absent. -/
def statsAbsent : OllamaStats :=
  { total_duration := none, load_duration := none, sample_count := none
    sample_duration := none, prompt_eval_count := none
    prompt_eval_duration := none, eval_count := none
    eval_duration := none }

/-- C7: `OllamaService.calculateMetrics` divides the nanosecond
`eval_duration` by 1000 instead of 1e9 — for 100 tokens generated in one
second (1e9 ns) it stores 1/10000 tokens-per-second where the specified
formula `eval_count / (eval_duration_ns / 1e9)` gives 100; the fallback
branch (either eval field absent) does match the specification: the
character-estimate token count over the wall-clock seconds (1 token over
500 ms gives 2). -/
theorem calculateMetrics_divides_ns_by_1000 :
    (calculateMetrics cfgOllama statsOneSecond 5000 "").tokensPerSecond
      = JSNum.fin (1 / 10000)
    ∧ (1 / 10000 : ℚ) ≠ 100
    ∧ (calculateMetrics cfgOllama statsAbsent 500 "abcd").tokensPerSecond
      = JSNum.fin 2 := by
  have h4 : "abcd".length = 4 := rfl
  refine ⟨?_, by norm_num, ?_⟩
  · norm_num [calculateMetrics, jsTruthyNum, jsDiv, statsOneSecond]
  · norm_num [calculateMetrics, jsTruthyNum, wallClockTps, jsDiv,
      estimateTokenCount, statsAbsent, h4]

/-- C6 counterexample: a zero elapsed time is not clamped — the GGUF
adapter stores `Infinity` in `tokensPerSecond` for a successful call with
nonzero content and zero wall-clock time, and the OpenAI adapter stores
`NaN` when both the completion-token count and the elapsed time are
zero. -/
theorem tps_zero_elapsed_not_clamped :
    (ggufGenerateResponse cfgGGUF "hi"
      (GGUFOutcome.success "abcd" 0)).1.metrics.tokensPerSecond = JSNum.posInf
    ∧ ((ggufGenerateResponse cfgGGUF "hi"
      (GGUFOutcome.success "abcd" 0)).1.metrics.tokensPerSecond).isInf = true
    ∧ (openaiGenerateResponse cfgOpenAI
      (OpenAIOutcome.success "ok" ⟨10, 0, 10⟩ 0)).1.metrics.tokensPerSecond
      = JSNum.nan := by
  have h4 : "abcd".length = 4 := rfl
  refine ⟨?_, ?_, ?_⟩
  · norm_num [ggufGenerateResponse, wallClockTps, jsDiv, estimateTokenCount, h4]
  · norm_num [ggufGenerateResponse, wallClockTps, jsDiv, estimateTokenCount, h4,
      JSNum.isInf]
  · norm_num [openaiGenerateResponse, wallClockTps, jsDiv]

/-- C6 amended: `tokensPerSecond` is stored as
`completionTokens / (responseTime / 1000)` with no clamping — for a
positive elapsed time and a nonnegative token count the stored value is
finite, non-NaN and nonnegative (and every failure branch stores a
literal 0), but a zero elapsed time propagates: `Infinity` for a positive
token count and `NaN` for a zero token count. -/
theorem tps_sign_and_degenerate_cases :
    (∀ tokens rt : ℚ, 0 ≤ tokens → 0 < rt →
      wallClockTps tokens rt = JSNum.fin (tokens / (rt / 1000))
      ∧ (wallClockTps tokens rt).isNeg = false
      ∧ (wallClockTps tokens rt).isInf = false
      ∧ (wallClockTps tokens rt).isNaN = false)
    ∧ (∀ tokens : ℚ, 0 < tokens → wallClockTps tokens 0 = JSNum.posInf)
    ∧ wallClockTps 0 0 = JSNum.nan
    ∧ (∀ (g : GGUFModelConfig) (prompt content : String) (rt : ℚ),
        (ggufGenerateResponse g prompt
          (GGUFOutcome.success content rt)).1.metrics.tokensPerSecond
          = wallClockTps (estimateTokenCount content) rt)
    ∧ (∀ (a : APIEndpointConfig) (content : String) (u : OpenAIUsage) (rt : ℚ),
        (openaiGenerateResponse a
          (OpenAIOutcome.success content u rt)).1.metrics.tokensPerSecond
          = wallClockTps u.completion_tokens rt)
    ∧ (∀ (g : GGUFModelConfig) (prompt m : String),
        (ggufGenerateResponse g prompt
          (GGUFOutcome.fetchError m)).1.metrics.tokensPerSecond = JSNum.fin 0) := by
  refine ⟨?_, ?_, ?_, fun _ _ _ _ => rfl, fun _ _ _ _ => rfl, fun _ _ _ => rfl⟩
  · intro tokens rt h0 hrt
    have h2 : rt / 1000 ≠ 0 := by positivity
    have htv : wallClockTps tokens rt = JSNum.fin (tokens / (rt / 1000)) := by
      simp [wallClockTps, jsDiv, h2]
    have hnn : 0 ≤ tokens / (rt / 1000) :=
      div_nonneg h0 (by positivity)
    refine ⟨htv, ?_, ?_, ?_⟩ <;> rw [htv] <;>
      simp [JSNum.isNeg, JSNum.isInf, JSNum.isNaN, not_lt.mpr hnn]
  · intro tokens ht
    have h1 : ¬ ((0:ℚ) / 1000 ≠ 0) := by norm_num
    simp [wallClockTps, jsDiv, h1, ht]
  · norm_num [wallClockTps, jsDiv]

/-- Witness for the amended C6 theorem: 50 tokens over 2000 ms is finite,
non-NaN and nonnegative, and 1 token over 0 ms is `Infinity`. -/
theorem tps_sign_and_degenerate_cases_witness :
    (wallClockTps 50 2000).isInf = false
    ∧ (wallClockTps 50 2000).isNeg = false
    ∧ wallClockTps 1 0 = JSNum.posInf :=
  ⟨(tps_sign_and_degenerate_cases.1 50 2000 (by norm_num) (by norm_num)).2.2.1,
   (tps_sign_and_degenerate_cases.1 50 2000 (by norm_num) (by norm_num)).2.1,
   tps_sign_and_degenerate_cases.2.1 1 (by norm_num)⟩

/-- C1 counterexample: a configuration set whose single enabled entry is
a huggingface config has an enabled subset of cardinality 1, yet
`compareModels` resolves with 0 responses — `updateConfigs` builds no
services for the google and huggingface kinds, so those enabled
configurations yield no ModelResponse. -/
theorem compare_drops_huggingface :
    enabledTotal configsHF = 1
    ∧ resultLen (compareModels (updateConfigs configsHF) envOk "hello").1 = some 0 :=
  ⟨rfl, rfl⟩

/-- C1 amended: `compareModels` resolves with exactly one response per
enabled configuration of the openai, anthropic and gguf kinds — enabled
google and huggingface configurations are dropped without a response —
provided no ollama configuration is enabled; if any ollama configuration
is enabled the whole call rejects, because the dispatch invokes the
nonexistent `OllamaService.generateResponse`. -/
theorem compareModels_one_response_per_dispatched_config :
    ∀ (configs : ProviderConfigs) (env : Env) (prompt : String),
    (configs.ollama.filter (fun c => c.enabled) = [] →
      resultLen (compareModels (updateConfigs configs) env prompt).1
        = some ((configs.openai.filter (fun c => c.enabled)).length
            + (configs.anthropic.filter (fun c => c.enabled)).length
            + (configs.gguf.filter (fun c => c.enabled)).length))
    ∧ (configs.ollama.filter (fun c => c.enabled) ≠ [] →
        (compareModels (updateConfigs configs) env prompt).1
          = Except.error "service.generateResponse is not a function") := by
  intro configs env prompt
  constructor
  · intro h
    simp [compareModels, updateConfigs, resultLen, exceptValue, h]
    omega
  · intro h
    rcases hfl : configs.ollama.filter (fun c => c.enabled) with _ | ⟨a, l⟩
    · exact absurd hfl h
    · simp [compareModels, updateConfigs, hfl]

/-- Witness for the amended C1 theorem: one enabled OpenAI config gives
exactly one response even when its call fails, and one enabled Ollama
config makes the whole comparison reject. -/
theorem compareModels_one_response_per_dispatched_config_witness :
    resultLen (compareModels (updateConfigs configsOne) envAllFail "hello").1 = some 1
    ∧ (compareModels (updateConfigs configsOllama) envOk "hi").1
        = Except.error "service.generateResponse is not a function" := by
  constructor
  · have h := (compareModels_one_response_per_dispatched_config
      configsOne envAllFail "hello").1 rfl
    simpa [configsOne, configsEmptyBase, cfgOpenAI] using h
  · exact (compareModels_one_response_per_dispatched_config
      configsOllama envOk "hi").2 (by decide)

/-- C5 counterexample: with OpenAI config `A` and GGUF config `B`, under
a latency assignment where `B` settles first the settlement order is
`[B, A]`, yet `compareModels` returns the responses as `[A, B]` — the
submission order, a fixed function of the input configuration order, not
the completion order. -/
theorem response_order_not_settlement_order :
    resultIds (compareModels (updateConfigs configsAB) envOk "hello").1
      = some ["A", "B"]
    ∧ settlementOrder latAB ["A", "B"] = ["B", "A"]
    ∧ (["A", "B"] : List String) ≠ ["B", "A"] := by decide

/-- C5 amended: the response sequence is in SUBMISSION order — openai,
then anthropic, then gguf, each group in configuration order
(`Promise.all` resolves positionally) — independent of settlement
timing, so callers may rely on this fixed order, not merely on
set-equality of provider ids. -/
theorem response_order_is_submission_order :
    ∀ (configs : ProviderConfigs) (env : Env) (prompt : String),
    configs.ollama.filter (fun c => c.enabled) = [] →
    resultIds (compareModels (updateConfigs configs) env prompt).1
      = some (submissionIds (updateConfigs configs)) := by
  intro configs env prompt h
  simp [compareModels, updateConfigs, resultIds, exceptValue, submissionIds, h,
    openaiGenerateResponse_id, anthropicGenerateResponse_id,
    ggufGenerateResponse_id, List.map_map, Function.comp_def]

/-- Witness for the amended C5 theorem at the two-config set. -/
theorem response_order_is_submission_order_witness :
    resultIds (compareModels (updateConfigs configsAB) envAllFail "x").1
      = some (submissionIds (updateConfigs configsAB)) :=
  response_order_is_submission_order configsAB envAllFail "x" (by decide)

/-- C3 counterexample: with a whitespace-only prompt and one enabled
OpenAI config, `compareModels` issues one network call and produces one
ModelResponse (no user-input error is raised before the call); and with
zero enabled configurations it resolves with a normal empty
`ComparisonResult` rather than reporting an error. -/
theorem compareModels_no_input_validation :
    jsTrim "  " = ""
    ∧ (compareModels (updateConfigs configsOne) envOk "  ").2 = 1
    ∧ resultLen (compareModels (updateConfigs configsOne) envOk "  ").1 = some 1
    ∧ exceptValue (compareModels (updateConfigs configsEmptyBase) envOk "hi").1
        = some { prompt := "hi", timestamp := "2026-01-01T00:00:00.000Z"
                 responses := [], totalTime := 2000, errors := none } := by
  decide

/-- C3 amended: the user-input checks live in the dashboard's
`handleCompare`, which reports the empty-prompt and empty-selection
errors before any network call (zero calls, no responses); the
orchestrator's `compareModels` itself performs no validation — with zero
enabled configurations it resolves with a normal empty result and zero
calls instead of an error, and with an empty prompt it still produces one
response per dispatched enabled configuration. -/
theorem input_guards_live_in_dashboard :
    ∀ (configs : ProviderConfigs) (env : Env) (prompt : String)
      (selected : List String),
    (jsTrim prompt = "" →
      handleCompare configs env prompt selected
        = (DashOutcome.inputError "Please enter a prompt to compare", 0))
    ∧ (jsTrim prompt ≠ "" → selected = [] →
      handleCompare configs env prompt selected
        = (DashOutcome.inputError "Please select at least one model to compare", 0))
    ∧ (enabledTotal configs = 0 →
      compareModels (updateConfigs configs) env prompt
        = (Except.ok { prompt := prompt, timestamp := env.timestampStr
                       responses := [], totalTime := env.totalElapsed
                       errors := none }, 0))
    ∧ (configs.ollama.filter (fun c => c.enabled) = [] →
      resultLen (compareModels (updateConfigs configs) env "").1
        = some ((configs.openai.filter (fun c => c.enabled)).length
            + (configs.anthropic.filter (fun c => c.enabled)).length
            + (configs.gguf.filter (fun c => c.enabled)).length)) := by
  intro configs env prompt selected
  refine ⟨?_, ?_, ?_, ?_⟩
  · intro h
    simp [handleCompare, h]
  · intro h hsel
    simp [handleCompare, h, hsel]
  · intro h
    simp only [enabledTotal, Nat.add_eq_zero, List.length_eq_zero] at h
    obtain ⟨⟨⟨⟨⟨h1, h2⟩, h3⟩, h4⟩, h5⟩, h6⟩ := h
    simp [compareModels, updateConfigs, h1, h2, h4, h6]
  · intro h
    simp [compareModels, updateConfigs, resultLen, exceptValue, h]
    omega

/-- Witness for the amended C3 theorem: the two guards fire at concrete
inputs with zero network calls, and the zero-enabled comparison returns
the normal empty result. -/
theorem input_guards_live_in_dashboard_witness :
    handleCompare configsOne envOk "  " ["A"]
      = (DashOutcome.inputError "Please enter a prompt to compare", 0)
    ∧ handleCompare configsOne envOk "hi" []
      = (DashOutcome.inputError "Please select at least one model to compare", 0)
    ∧ compareModels (updateConfigs configsEmptyBase) envOk "hi"
      = (Except.ok { prompt := "hi", timestamp := envOk.timestampStr
                     responses := [], totalTime := envOk.totalElapsed
                     errors := none }, 0) :=
  ⟨(input_guards_live_in_dashboard configsOne envOk "  " ["A"]).1 (by decide),
   (input_guards_live_in_dashboard configsOne envOk "hi" []).2.1 (by decide) rfl,
   (input_guards_live_in_dashboard configsEmptyBase envOk "hi" []).2.2.1 (by decide)⟩

/-- C8 counterexample: `validateConnections` keys are provider-kind
prefixed (`openai-A`), not the bare config id (`A`). -/
theorem validateConnections_keys_not_bare_ids :
    (validateConnections (updateConfigs configsOne) envOk).map Prod.fst
      = ["openai-A"]
    ∧ (["openai-A"] : List String) ≠ ["A"] := by decide

/-- C8 amended: `validateConnections` produces one entry per enabled
configuration of the four dispatched kinds (enabled google and
huggingface configs get none), keyed `<kind>-<id>`, with the value the
probe result — `!response.error` of a test generation for openai and
anthropic, non-emptiness of the model listing for ollama, the health
probe for gguf — and the operation is total (never throws; every probe
failure maps to `false` inside the probed operation or its
`try`/`catch`). -/
theorem validateConnections_keys_and_values :
    ∀ (configs : ProviderConfigs) (env : Env),
    ((validateConnections (updateConfigs configs) env).map Prod.fst
      = (configs.openai.filter (fun c => c.enabled)).map (fun c => "openai-" ++ c.id)
        ++ (configs.anthropic.filter (fun c => c.enabled)).map
            (fun c => "anthropic-" ++ c.id)
        ++ (configs.ollama.filter (fun c => c.enabled)).map
            (fun c => "ollama-" ++ c.id)
        ++ (configs.gguf.filter (fun c => c.enabled)).map (fun c => "gguf-" ++ c.id))
    ∧ (∀ c ∈ configs.openai.filter (fun c => c.enabled),
        ("openai-" ++ c.id,
          !(jsTruthyStr (openaiGenerateResponse c (env.openaiCall c "test")).1.error))
          ∈ validateConnections (updateConfigs configs) env)
    ∧ (∀ c ∈ configs.ollama.filter (fun c => c.enabled),
        ("ollama-" ++ c.id,
          decide ((ollamaListModels (env.ollamaTags c)).length > 0))
          ∈ validateConnections (updateConfigs configs) env)
    ∧ (∀ c ∈ configs.gguf.filter (fun c => c.enabled),
        ("gguf-" ++ c.id, env.ggufHealth c)
          ∈ validateConnections (updateConfigs configs) env) := by
  intro configs env
  refine ⟨?_, ?_, ?_, ?_⟩
  · simp [validateConnections, updateConfigs, List.map_append, List.map_map,
      Function.comp_def]
  · intro c hc
    simp only [validateConnections, updateConfigs, List.mem_append, List.mem_map]
    exact Or.inl (Or.inl (Or.inl ⟨c, hc, rfl⟩))
  · intro c hc
    simp only [validateConnections, updateConfigs, List.mem_append, List.mem_map]
    exact Or.inl (Or.inr ⟨c, hc, rfl⟩)
  · intro c hc
    simp only [validateConnections, updateConfigs, List.mem_append, List.mem_map]
    exact Or.inr ⟨c, hc, rfl⟩

/-- Witness for the amended C8 theorem: the single enabled OpenAI config
yields exactly the key `openai-A`, whose value is `false` when the test
generation fails. -/
theorem validateConnections_keys_and_values_witness :
    (validateConnections (updateConfigs configsOne) envAllFail).map Prod.fst
      = ["openai-A"]
    ∧ ("openai-A", false) ∈ validateConnections (updateConfigs configsOne) envAllFail := by
  constructor
  · have h := (validateConnections_keys_and_values configsOne envAllFail).1
    simpa [configsOne, configsEmptyBase, cfgOpenAI] using h
  · have h := (validateConnections_keys_and_values configsOne envAllFail).2.1
      cfgOpenAI (by decide)
    simpa [envAllFail, openaiGenerateResponse, jsTruthyStr, cfgOpenAI] using h

/-- C4 counterexample: when the single enabled provider fails,
`compareModels` resolves with a NORMAL `ComparisonResult` — one all-error
entry and a populated `errors` list — rather than reporting a distinct
"no successful responses" error to the caller. -/
theorem compareModels_total_failure_is_normal_result :
    exceptValue (compareModels (updateConfigs configsOne) envAllFail "hello").1
      = some { prompt := "hello", timestamp := "2026-01-01T00:00:00.000Z"
               responses := [respOpenAIFail], totalTime := 0
               errors := some ["OpenAI (gpt-4): Failed to fetch"] } := by
  decide

/-- C4 amended: when every launched provider call fails, `compareModels`
still resolves normally — every response carries a truthy error and the
`errors` list collects one formatted entry per response — and the
distinct "No successful model responses" error is raised only by the
dashboard's `handleCompare`, when every selected model's processing
yields null. -/
theorem total_failure_reporting :
    ∀ (svc : Services) (configs : ProviderConfigs) (env : Env)
      (prompt : String) (selected : List String),
    (svc.ollama = [] →
     (∀ c ∈ svc.openai,
        jsTruthyStr (openaiGenerateResponse c (env.openaiCall c prompt)).1.error
          = true) →
     (∀ c ∈ svc.anthropic,
        jsTruthyStr
          (anthropicGenerateResponse c prompt (env.anthropicCall c prompt)).1.error
          = true) →
     (∀ c ∈ svc.gguf,
        jsTruthyStr (ggufGenerateResponse c prompt (env.ggufCall c prompt)).1.error
          = true) →
     ∃ r, (compareModels svc env prompt).1 = Except.ok r
       ∧ (∀ resp ∈ r.responses, jsTruthyStr resp.error = true)
       ∧ (r.responses ≠ [] →
           r.errors = some (r.responses.map formatAggregateErr)))
    ∧ (jsTrim prompt ≠ "" → selected ≠ [] →
       (∀ id ∈ selected, (dashProcessOne configs env prompt id).1 = none) →
       (handleCompare configs env prompt selected).1
         = DashOutcome.totalFailure "No successful model responses") := by
  intro svc configs env prompt selected
  constructor
  · intro h1 h2 h3 h4
    have hmem : ∀ resp ∈ compareResponses svc env prompt,
        jsTruthyStr resp.error = true := by
      intro resp hresp
      simp only [compareResponses] at hresp
      rcases List.mem_map.mp hresp with ⟨x, hx, hxe⟩
      rcases List.mem_append.mp hx with hx12 | hx3
      · rcases List.mem_append.mp hx12 with hx1 | hx2
        · rcases List.mem_map.mp hx1 with ⟨c, hc, hce⟩
          rw [← hxe, ← hce]
          exact h2 c hc
        · rcases List.mem_map.mp hx2 with ⟨c, hc, hce⟩
          rw [← hxe, ← hce]
          exact h3 c hc
      · rcases List.mem_map.mp hx3 with ⟨c, hc, hce⟩
        rw [← hxe, ← hce]
        exact h4 c hc
    have hfilter : (compareResponses svc env prompt).filter
        (fun r => jsTruthyStr r.error) = compareResponses svc env prompt :=
      List.filter_eq_self.mpr hmem
    refine ⟨_, compareModels_ok svc env prompt h1, ?_, ?_⟩
    · intro resp hresp
      exact hmem resp hresp
    · intro hne
      have hlen : 0 < (compareResponses svc env prompt).length :=
        List.length_pos.mpr hne
      simp only [hfilter]
      rw [if_pos (by simpa using hlen)]
  · intro hp hsel hall
    have hsel2 : selected.isEmpty = false := by
      cases selected with
      | nil => exact absurd rfl hsel
      | cons a l => rfl
    have hfm : (selected.map (dashProcessOne configs env prompt)).filterMap
        Prod.fst = [] := by
      rw [List.filterMap_map]
      exact List.filterMap_eq_nil_iff.mpr (fun id hid => hall id hid)
    simp [handleCompare, hp, hsel2, hfm]

/-- Witness for the amended C4 theorem: with the single enabled OpenAI
config all-failing, the comparison resolves normally with all-error
entries, and the dashboard run over the failing Ollama model raises the
total-failure error. -/
theorem total_failure_reporting_witness :
    (∃ r, (compareModels (updateConfigs configsOne) envAllFail "hello").1
        = Except.ok r
      ∧ (∀ resp ∈ r.responses, jsTruthyStr resp.error = true)
      ∧ (r.responses ≠ [] → r.errors = some (r.responses.map formatAggregateErr)))
    ∧ (handleCompare configsOllama envAllFail "hello" ["O"]).1
        = DashOutcome.totalFailure "No successful model responses" :=
  ⟨(total_failure_reporting (updateConfigs configsOne) configsOne envAllFail
      "hello" []).1 (by decide) (by decide) (by decide) (by decide),
   (total_failure_reporting (updateConfigs configsOllama) configsOllama envAllFail
      "hello" ["O"]).2 (by decide) (by decide) (by decide)⟩
